import Mathlib

/-!
# Verification of the LibreChat conversation-cost feature

Shallow embedding of the pricing / cost-aggregation code:

* `pricing-config` (src/unnamed/part_000): the static `PRICING_CONFIG`
  table, `getPricingForDate`, `calculateCost`, `getModelInfo`;
* `ConversationCost.js`: `calculateConversationCost`,
  `getConversationCostDisplay` (with its `formatCost`), and
  `getMultipleConversationCosts`.

Conventions of the embedding:

* JS numbers are embedded as `ℚ` (prices, costs) and token counts as `ℕ`
  (the code takes `Math.abs` of every raw count before use).
* JS `Date` values are embedded as `Option Int`: `none` stands for an
  Invalid Date (`new Date(undefined)`, whose comparisons are all false,
  exactly as NaN comparisons are), `some n` for a valid instant.  ISO
  timestamps are encoded as the integer `yyyymmddHHMMSS`, which is
  order- and equality-isomorphic to the epoch-milliseconds value for the
  fixed-format UTC strings appearing in the table.
* Absent / `undefined` object fields are `Option` fields.
* The `source` / `notes` metadata strings of pricing periods are never
  read by any computation and are omitted from the records.
-/

/-- Cache pricing of a period (`cache.write` / `cache.read`, USD per 1M
tokens).  In the table a `cache` object always carries both fields. -/
structure CachePricing where
  write : ℚ
  read : ℚ
deriving Repr, DecidableEq

/-- Reasoning pricing of a period (`reasoning.tokens`, USD per 1M tokens). -/
structure ReasoningPricing where
  tokens : ℚ
deriving Repr, DecidableEq

/-- One pricing period of a model (`PricingPeriod` in the source).
`effectiveTo = none` means open-ended ("null means current"). -/
structure PricingPeriod where
  effectiveFrom : Int
  effectiveTo : Option Int := none
  prompt : ℚ
  completion : ℚ
  cache : Option CachePricing := none
  reasoning : Option ReasoningPricing := none
deriving Repr, DecidableEq

/-- The entry of one model in the table (`ModelPricing` in the source). -/
structure ModelPricing where
  provider : String
  category : String
  pricing : List PricingPeriod
deriving Repr, DecidableEq

/-- The static `PRICING_CONFIG` table, embedded verbatim (keys in source
order; a JS object literal with distinct keys is an ordered association
list). -/
def PRICING_CONFIG : List (String × ModelPricing) := [
  ("gpt-4o",
    { provider := "OpenAI", category := "gpt-4o",
      pricing := [
        { effectiveFrom := 20240513000000, prompt := 5.0, completion := 15.0 }] }),
  ("gpt-4o-mini",
    { provider := "OpenAI", category := "gpt-4o",
      pricing := [
        { effectiveFrom := 20240718000000, prompt := 0.15, completion := 0.6 }] }),
  ("gpt-4",
    { provider := "OpenAI", category := "gpt-4",
      pricing := [
        { effectiveFrom := 20240101000000, prompt := 30.0, completion := 60.0 }] }),
  ("gpt-4-turbo",
    { provider := "OpenAI", category := "gpt-4",
      pricing := [
        { effectiveFrom := 20240409000000, prompt := 10.0, completion := 30.0 }] }),
  ("gpt-3.5-turbo",
    { provider := "OpenAI", category := "gpt-3.5",
      pricing := [
        { effectiveFrom := 20240125000000, prompt := 0.5, completion := 1.5 },
        { effectiveFrom := 20231106000000, effectiveTo := some 20240124235959,
          prompt := 1.0, completion := 2.0 }] }),
  ("o1",
    { provider := "OpenAI", category := "o1",
      pricing := [
        { effectiveFrom := 20241205000000, prompt := 15.0, completion := 60.0,
          reasoning := some { tokens := 15.0 } }] }),
  ("o1-mini",
    { provider := "OpenAI", category := "o1",
      pricing := [
        { effectiveFrom := 20240912000000, prompt := 3.0, completion := 12.0,
          reasoning := some { tokens := 3.0 } }] }),
  ("o1-preview",
    { provider := "OpenAI", category := "o1",
      pricing := [
        { effectiveFrom := 20240912000000, prompt := 15.0, completion := 60.0,
          reasoning := some { tokens := 15.0 } }] }),
  ("claude-3-5-sonnet",
    { provider := "Anthropic", category := "claude-3.5",
      pricing := [
        { effectiveFrom := 20240620000000, prompt := 3.0, completion := 15.0,
          cache := some { write := 3.75, read := 0.3 } }] }),
  ("claude-3.5-sonnet",
    { provider := "Anthropic", category := "claude-3.5",
      pricing := [
        { effectiveFrom := 20240620000000, prompt := 3.0, completion := 15.0,
          cache := some { write := 3.75, read := 0.3 } }] }),
  ("claude-3-5-haiku",
    { provider := "Anthropic", category := "claude-3.5",
      pricing := [
        { effectiveFrom := 20241101000000, prompt := 0.8, completion := 4.0,
          cache := some { write := 1.0, read := 0.08 } }] }),
  ("claude-3.5-haiku",
    { provider := "Anthropic", category := "claude-3.5",
      pricing := [
        { effectiveFrom := 20241101000000, prompt := 0.8, completion := 4.0,
          cache := some { write := 1.0, read := 0.08 } }] }),
  ("claude-3-opus",
    { provider := "Anthropic", category := "claude-3",
      pricing := [
        { effectiveFrom := 20240304000000, prompt := 15.0, completion := 75.0 }] }),
  ("claude-3-sonnet",
    { provider := "Anthropic", category := "claude-3",
      pricing := [
        { effectiveFrom := 20240304000000, prompt := 3.0, completion := 15.0 }] }),
  ("claude-3-haiku",
    { provider := "Anthropic", category := "claude-3",
      pricing := [
        { effectiveFrom := 20240304000000, prompt := 0.25, completion := 1.25,
          cache := some { write := 0.3, read := 0.03 } }] }),
  ("gemini-1.5-pro",
    { provider := "Google", category := "gemini-1.5",
      pricing := [
        { effectiveFrom := 20240215000000, prompt := 2.5, completion := 10.0 }] }),
  ("gemini-1.5-flash",
    { provider := "Google", category := "gemini-1.5",
      pricing := [
        { effectiveFrom := 20240514000000, prompt := 0.15, completion := 0.6 }] }),
  ("gemini-1.5-flash-8b",
    { provider := "Google", category := "gemini-1.5",
      pricing := [
        { effectiveFrom := 20241003000000, prompt := 0.075, completion := 0.3 }] }),
  ("mistral-large",
    { provider := "Mistral", category := "mistral-large",
      pricing := [
        { effectiveFrom := 20240101000000, prompt := 2.0, completion := 6.0 }] }),
  ("mistral-small",
    { provider := "Mistral", category := "mistral-small",
      pricing := [
        { effectiveFrom := 20240101000000, prompt := 0.2, completion := 0.6 }] }),
  ("command-r-plus",
    { provider := "Cohere", category := "command-r",
      pricing := [
        { effectiveFrom := 20240404000000, prompt := 3.0, completion := 15.0 }] }),
  ("command-r",
    { provider := "Cohere", category := "command-r",
      pricing := [
        { effectiveFrom := 20240311000000, prompt := 0.5, completion := 1.5 }] })]

/-- Property lookup `PRICING_CONFIG[modelId]` on the config object. -/
def lookupConfig (modelId : String) : Option ModelPricing :=
  (PRICING_CONFIG.find? (fun e => e.1 == modelId)).map (·.2)

/-- The test `date >= effectiveFrom && (!effectiveTo || date <= effectiveTo)`
of `getPricingForDate`; `none` (Invalid Date) compares false, like NaN. -/
def periodContains (p : PricingPeriod) (date : Option Int) : Bool :=
  match date with
  | none => false
  | some d =>
    p.effectiveFrom ≤ d &&
      (match p.effectiveTo with
       | none => true
       | some t => d ≤ t)

/-- The `for (const period of modelConfig.pricing)` loop of
`getPricingForDate`: return the first period containing the date. -/
def findPeriod (date : Option Int) : List PricingPeriod → Option PricingPeriod
  | [] => none
  | p :: rest => if periodContains p date then some p else findPeriod date rest

/-- Embedding of `getPricingForDate(modelId, date)` (src/unnamed/part_000, lines
380-398): unknown model gives null; otherwise the loop above, with the
last-listed period as fallback when no period matches. -/
def getPricingForDate (modelId : String) (date : Option Int) :
    Option PricingPeriod :=
  match lookupConfig modelId with
  | none => none
  | some modelConfig =>
    match findPeriod date modelConfig.pricing with
    | some p => some p
    | none => modelConfig.pricing.getLast?

/-- Normalized token usage (`tokenUsage` argument of `calculateCost`):
absent fields behave as 0 everywhere downstream (falsy, `|| 0`). -/
structure TokenUsage where
  promptTokens : ℕ := 0
  completionTokens : ℕ := 0
  cacheWriteTokens : ℕ := 0
  cacheReadTokens : ℕ := 0
  reasoningTokens : ℕ := 0
deriving Repr, DecidableEq

/-- The `costs` object computed by `calculateCost`. -/
structure CostResult where
  prompt : ℚ
  completion : ℚ
  cacheWrite : ℚ
  cacheRead : ℚ
  reasoning : ℚ
  total : ℚ
deriving Repr, DecidableEq

/-- Embedding of `calculateCost(modelId, tokenUsage, date)` (src/unnamed/part_000,
lines 412-458).  Each `if (tokenUsage.X)` is a truthiness test (count
nonzero); `pricing.cache?.write` etc. are truthiness tests too (field
present and nonzero). -/
def calculateCost (modelId : String) (tokenUsage : TokenUsage)
    (date : Option Int) : Option CostResult :=
  match getPricingForDate modelId date with
  | none => none
  | some pricing =>
    let promptCost : ℚ :=
      if tokenUsage.promptTokens ≠ 0 then
        ((tokenUsage.promptTokens : ℚ) / 1000000) * pricing.prompt
      else 0
    let completionCost : ℚ :=
      if tokenUsage.completionTokens ≠ 0 then
        ((tokenUsage.completionTokens : ℚ) / 1000000) * pricing.completion
      else 0
    let cacheWriteCost : ℚ :=
      match pricing.cache with
      | some c =>
        if tokenUsage.cacheWriteTokens ≠ 0 ∧ c.write ≠ 0 then
          ((tokenUsage.cacheWriteTokens : ℚ) / 1000000) * c.write
        else 0
      | none => 0
    let cacheReadCost : ℚ :=
      match pricing.cache with
      | some c =>
        if tokenUsage.cacheReadTokens ≠ 0 ∧ c.read ≠ 0 then
          ((tokenUsage.cacheReadTokens : ℚ) / 1000000) * c.read
        else 0
      | none => 0
    let reasoningCost : ℚ :=
      match pricing.reasoning with
      | some r =>
        if tokenUsage.reasoningTokens ≠ 0 ∧ r.tokens ≠ 0 then
          ((tokenUsage.reasoningTokens : ℚ) / 1000000) * r.tokens
        else 0
      | none => 0
    some { prompt := promptCost, completion := completionCost,
           cacheWrite := cacheWriteCost, cacheRead := cacheReadCost,
           reasoning := reasoningCost,
           total := promptCost + completionCost + cacheWriteCost +
             cacheReadCost + reasoningCost }

/-- Result of `getModelInfo`. -/
structure ModelInfo where
  modelId : String
  provider : String
  category : String
  supportsCaching : Bool
  supportsReasoning : Bool
deriving Repr, DecidableEq

/-- Embedding of `getModelInfo(modelId)` (src/unnamed/part_000, lines 473-486). -/
def getModelInfo (modelId : String) : Option ModelInfo :=
  (lookupConfig modelId).map fun config =>
    { modelId := modelId
      provider := config.provider
      category := config.category
      supportsCaching := config.pricing.any (·.cache.isSome)
      supportsReasoning := config.pricing.any (·.reasoning.isSome) }

/-!
## ConversationCost.js — transaction-based aggregation

A `Transaction` carries the fields read by `calculateConversationCost`.
`createdAt : Option Int` uses `none` for a missing timestamp
(`new Date(undefined)` is an Invalid Date; every comparison on it is
false and it makes `getPricingForDate` fall through to its fallback,
exactly like `none` does here).  `tokenType` stays a string, as in the
document schema. -/
structure Transaction where
  model : Option String := none
  tokenType : String := ""
  rawAmount : Option Int := none
  inputTokens : Option Int := none
  writeTokens : Option Int := none
  readTokens : Option Int := none
  tokenValue : Option ℚ := none
  createdAt : Option Int := none
deriving Repr, DecidableEq

/-- Running per-category cost accumulator (`costBreakdown` object). -/
structure CostBreakdown where
  prompt : ℚ := 0
  completion : ℚ := 0
  cacheWrite : ℚ := 0
  cacheRead : ℚ := 0
  reasoning : ℚ := 0
deriving Repr, DecidableEq

/-- Per-model accumulator (the values of the `modelBreakdown` map). -/
structure ModelData where
  modelId : String
  cost : ℚ := 0
  tokenUsage : TokenUsage := {}
  transactionCount : ℕ := 0
deriving Repr, DecidableEq

/-- The loop state of `calculateConversationCost`: the two accumulators,
the insertion-ordered `modelBreakdown` map, and `lastUpdated`
(initialized to `new Date(0)`, the epoch). -/
structure AggState where
  costBreakdown : CostBreakdown := {}
  tokenUsage : TokenUsage := {}
  models : List (String × ModelData) := []
  lastUpdated : Int := 0
deriving Repr, DecidableEq

/-- Lookup `modelBreakdown.get(modelId)` on the insertion-ordered map. -/
def findModel (models : List (String × ModelData)) (modelId : String) :
    Option ModelData :=
  (models.find? (fun e => e.1 == modelId)).map (·.2)

/-- Insertion `modelBreakdown.set(modelId, fresh)` when absent (lines 82-95): keys
are appended in first-encounter order. -/
def ensureModel (models : List (String × ModelData)) (modelId : String) :
    List (String × ModelData) :=
  if (models.find? (fun e => e.1 == modelId)).isSome then models
  else models ++ [(modelId, { modelId := modelId })]

/-- In-place mutation of the `modelData` object fetched from the map. -/
def updateModel (models : List (String × ModelData)) (modelId : String)
    (f : ModelData → ModelData) : List (String × ModelData) :=
  models.map (fun e => if e.1 == modelId then (e.1, f e.2) else e)

/-- Pointwise sum of token usages (the `+=` accumulations, with absent
fields contributing `|| 0`). -/
def addTokens (a b : TokenUsage) : TokenUsage :=
  { promptTokens := a.promptTokens + b.promptTokens
    completionTokens := a.completionTokens + b.completionTokens
    cacheWriteTokens := a.cacheWriteTokens + b.cacheWriteTokens
    cacheReadTokens := a.cacheReadTokens + b.cacheReadTokens
    reasoningTokens := a.reasoningTokens + b.reasoningTokens }

/-- Lines 100-117: build `currentTokenUsage` from the tokenType and shape
of the transaction.  `Math.abs(x || 0)` is `Int.natAbs (x.getD 0)`;
`transaction.inputTokens !== undefined` is `isSome`. -/
def normalizeTransactionTokens (t : Transaction) : TokenUsage :=
  if t.tokenType == "prompt" then
    if t.inputTokens.isSome then
      { promptTokens := (t.inputTokens.getD 0).natAbs
        cacheWriteTokens := (t.writeTokens.getD 0).natAbs
        cacheReadTokens := (t.readTokens.getD 0).natAbs }
    else
      { promptTokens := (t.rawAmount.getD 0).natAbs }
  else if t.tokenType == "completion" then
    { completionTokens := (t.rawAmount.getD 0).natAbs }
  else if t.tokenType == "reasoning" then
    { reasoningTokens := (t.rawAmount.getD 0).natAbs }
  else {}

/-- The body of the `for (const transaction of transactions)` loop
(ConversationCost.js, lines 69-151). -/
def processTransaction (s : AggState) (t : Transaction) : AggState :=
  -- lines 70-73: track the maximum valid timestamp
  let lastUpdated :=
    match t.createdAt with
    | some d => if s.lastUpdated < d then d else s.lastUpdated
    | none => s.lastUpdated
  match t.model with
  | none =>
    -- lines 76-79: `continue` — only `lastUpdated` was touched
    { s with lastUpdated := lastUpdated }
  | some modelId =>
    -- lines 82-98: ensure the map entry and bump `transactionCount`
    let models :=
      updateModel (ensureModel s.models modelId) modelId
        (fun md => { md with transactionCount := md.transactionCount + 1 })
    let currentTokenUsage := normalizeTransactionTokens t
    -- lines 120-143: cost via historical pricing, or tokenValue fallback
    let s1 :=
      match calculateCost modelId currentTokenUsage t.createdAt with
      | some cost =>
        { s with
          costBreakdown :=
            { prompt := s.costBreakdown.prompt + cost.prompt
              completion := s.costBreakdown.completion + cost.completion
              cacheWrite := s.costBreakdown.cacheWrite + cost.cacheWrite
              cacheRead := s.costBreakdown.cacheRead + cost.cacheRead
              reasoning := s.costBreakdown.reasoning + cost.reasoning }
          models :=
            updateModel models modelId (fun md =>
              { md with cost := md.cost + cost.total
                        tokenUsage := addTokens md.tokenUsage currentTokenUsage }) }
      | none =>
        let fallbackCost : ℚ := |t.tokenValue.getD 0| / 1000000
        { s with
          costBreakdown :=
            if t.tokenType == "completion" then
              { s.costBreakdown with
                  completion := s.costBreakdown.completion + fallbackCost }
            else
              { s.costBreakdown with
                  prompt := s.costBreakdown.prompt + fallbackCost }
          models :=
            updateModel models modelId (fun md =>
              { md with cost := md.cost + fallbackCost }) }
    -- lines 146-150: total token usage accumulates in both branches
    { s1 with
      tokenUsage := addTokens s.tokenUsage currentTokenUsage
      lastUpdated := lastUpdated }

/-- JS `Math.round(x)`: nearest integer, ties toward +∞. -/
def jsRound (q : ℚ) : Int := ⌊q + 1 / 2⌋

/-- JS `Math.round(x * 100000) / 100000`: round to 5 decimal places. -/
def round5 (q : ℚ) : ℚ := (jsRound (q * 100000) : ℚ) / 100000

/-- One entry of the returned `modelBreakdown` array (lines 157-166):
the accumulated `ModelData` with provider/category attached. -/
structure ModelBreakdownEntry where
  modelId : String
  cost : ℚ
  tokenUsage : TokenUsage
  transactionCount : ℕ
  provider : String
  category : String
deriving Repr, DecidableEq

/-- Stable descending-by-cost insertion:
`Array.prototype.sort((a, b) => b.cost - a.cost)` is a stable sort by
descending cost. -/
def insertByCostDesc (x : ModelBreakdownEntry) :
    List ModelBreakdownEntry → List ModelBreakdownEntry
  | [] => [x]
  | y :: ys =>
    if y.cost < x.cost then x :: y :: ys else y :: insertByCostDesc x ys

/-- Stable sort by descending cost. -/
def sortByCostDesc : List ModelBreakdownEntry → List ModelBreakdownEntry
  | [] => []
  | x :: xs => insertByCostDesc x (sortByCostDesc xs)

/-- The `ConversationCostSummary` object returned at lines 168-181. -/
structure ConversationCostSummary where
  conversationId : String
  totalCost : ℚ
  costBreakdown : CostBreakdown
  tokenUsage : TokenUsage
  modelBreakdown : List ModelBreakdownEntry
  lastUpdated : Int
deriving Repr, DecidableEq

/-- Lines 157-166: map the accumulated entries through `getModelInfo`
(defaulting to "Unknown") and sort by cost descending. -/
def buildModelBreakdown (models : List (String × ModelData)) :
    List ModelBreakdownEntry :=
  sortByCostDesc (models.map (fun e =>
    let info := getModelInfo e.2.modelId
    { modelId := e.2.modelId
      cost := e.2.cost
      tokenUsage := e.2.tokenUsage
      transactionCount := e.2.transactionCount
      provider := ((info.map (·.provider)).getD "Unknown")
      category := ((info.map (·.category)).getD "Unknown") }))

/-- Embedding of `calculateConversationCost(conversationId, ...)` over the fetched,
`createdAt`-ordered transaction list (ConversationCost.js, lines
31-186).  Returns `none` when the list is empty (line 44-46). -/
def calculateConversationCost (conversationId : String)
    (transactions : List Transaction) : Option ConversationCostSummary :=
  if transactions.isEmpty then none
  else
    let s := transactions.foldl processTransaction {}
    let totalCost := s.costBreakdown.prompt + s.costBreakdown.completion +
      s.costBreakdown.cacheWrite + s.costBreakdown.cacheRead +
      s.costBreakdown.reasoning
    some { conversationId := conversationId
           totalCost := round5 totalCost
           costBreakdown :=
             { prompt := round5 s.costBreakdown.prompt
               completion := round5 s.costBreakdown.completion
               cacheWrite := round5 s.costBreakdown.cacheWrite
               cacheRead := round5 s.costBreakdown.cacheRead
               reasoning := round5 s.costBreakdown.reasoning }
           tokenUsage := s.tokenUsage
           modelBreakdown := buildModelBreakdown s.models
           lastUpdated := s.lastUpdated }

/-!
## Display formatting and the batch variant -/

/-- The character of a decimal digit. -/
def digitChar (n : ℕ) : Char := Char.ofNat (48 + n % 10)

/-- Exactly `k` decimal digits of the fractional part `fp < 10 ^ k`,
most significant first. -/
def fracDigits (k : ℕ) (fp : ℕ) : List Char :=
  (List.range k).map (fun i => digitChar (fp / 10 ^ (k - 1 - i) % 10))

/-- JS `x.toFixed(k)` for a non-negative number: the decimal string of
the value rounded to `k` digits, with exactly `k` digits after the
point (ECMA: the nearest multiple of `10 ^ -k`, ties away from zero,
which for non-negative values is `jsRound`). -/
def toFixedPos (k : ℕ) (q : ℚ) : String :=
  let scaled := (jsRound (q * 10 ^ k)).toNat
  toString (scaled / 10 ^ k) ++ "." ++ String.mk (fracDigits k (scaled % 10 ^ k))

/-- The `formatCost` closure of `getConversationCostDisplay`
(ConversationCost.js, lines 202-213); the client-side copy in
ConversationCost.tsx (lines 162-167) is textually identical. -/
def formatCost (cost : ℚ) : String :=
  if cost < 0.001 then "<$0.001"
  else if cost < 0.01 then "$" ++ toFixedPos 4 cost
  else if cost < 1 then "$" ++ toFixedPos 3 cost
  else "$" ++ toFixedPos 2 cost

/-- The object returned by `getConversationCostDisplay` (lines 215-222). -/
structure CostDisplay where
  conversationId : String
  totalCost : String
  totalCostRaw : ℚ
  primaryModel : String
  totalTokens : ℕ
  lastUpdated : Int
deriving Repr, DecidableEq

/-- Embedding of `getConversationCostDisplay(conversationId, userId)` (lines
194-227), with the persistence fetch abstracted as a function from the
conversation id to either a transaction list or a failure.  The
`catch` at lines 223-226 turns any failure into `null`. -/
def getConversationCostDisplay (fetch : String → Except Unit (List Transaction))
    (conversationId : String) : Option CostDisplay :=
  match fetch conversationId with
  | .error _ => none
  | .ok transactions =>
    match calculateConversationCost conversationId transactions with
    | none => none
    | some costSummary =>
      some { conversationId := conversationId
             totalCost := formatCost costSummary.totalCost
             totalCostRaw := costSummary.totalCost
             primaryModel :=
               ((costSummary.modelBreakdown.head?.map (·.modelId)).getD "Unknown")
             totalTokens := costSummary.tokenUsage.promptTokens +
               costSummary.tokenUsage.completionTokens
             lastUpdated := costSummary.lastUpdated }

/-- The `for (let i = 0; i < ids.length; i += batchSize)` slicing of
`getMultipleConversationCosts` (lines 241-242): consecutive slices of
`batchSize` elements. -/
def chunksOf (batchSize : ℕ) (hpos : 0 < batchSize) :
    List α → List (List α)
  | [] => []
  | x :: xs =>
    ((x :: xs).take batchSize) ::
      chunksOf batchSize hpos ((x :: xs).drop batchSize)
termination_by l => l.length
decreasing_by
  simp only [List.length_drop, List.length_cons]
  omega

/-- Embedding of `getMultipleConversationCosts(conversationIds, userId)` (lines
235-264): per-conversation displays computed batch by batch, assigned
into the `results` object (modelled as a partial map); a per-key
failure is already converted to `null` inside
`getConversationCostDisplay`, and the `try/catch` of lines 243-251
would likewise yield `null` for that key only. -/
def getMultipleConversationCosts (fetch : String → Except Unit (List Transaction))
    (conversationIds : List String) : String → Option (Option CostDisplay) :=
  (chunksOf 10 (by decide) conversationIds).foldl
    (fun results batch =>
      (batch.map (fun conversationId =>
        (conversationId, getConversationCostDisplay fetch conversationId))).foldl
        (fun res entry => fun k => if k == entry.1 then some entry.2 else res k)
        results)
    (fun _ => none)

/-!
## The message-based aggregator (spec-modelled)

The tests of the repository (ConversationCostDynamic.test.js) exercise
`calculateConversationCostFromMessages` from `ConversationCostDynamic.js`,
a source file that is not part of this fragment; only its tests are.
The token-shape normalization it performs is therefore modelled from the
spec (§3 UsageRecord, §4.2 step 1). -/

/-- The `usage` object of a message (`prompt_tokens`, `completion_tokens`,
optional `reasoning_tokens`). -/
structure UsageObject where
  prompt_tokens : Option ℕ := none
  completion_tokens : Option ℕ := none
  reasoning_tokens : Option ℕ := none
deriving Repr, DecidableEq

/-- The `tokens` object of a message (`prompt`/`completion` integers). -/
structure TokensObject where
  prompt : Option ℕ := none
  completion : Option ℕ := none
deriving Repr, DecidableEq

/-- The `cacheTokens` object of a message (`write` / `read`). -/
structure CacheTokens where
  write : Option ℕ := none
  read : Option ℕ := none
deriving Repr, DecidableEq

/-- One in-memory message (UsageRecord of spec §3). -/
structure Message where
  model : Option String := none
  tokenCount : Option ℕ := none
  usage : Option UsageObject := none
  tokens : Option TokensObject := none
  cacheTokens : Option CacheTokens := none
  createdAt : Option Int := none
deriving Repr, DecidableEq

/-- Modelled from the spec: `ConversationCostDynamic.js` is absent from
this fragment, so the normalization step of
`calculateConversationCostFromMessages` follows §4.2 step 1: precedence
`usage` > `tokens` > flat `tokenCount`, the flat count attributed to
completion when a model is present and to prompt otherwise, each field
defaulting to 0, and cache counts always sourced from `cacheTokens`. -/
def normalizeMessageTokens (m : Message) : TokenUsage :=
  let main : TokenUsage :=
    match m.usage with
    | some u =>
      { promptTokens := u.prompt_tokens.getD 0
        completionTokens := u.completion_tokens.getD 0
        reasoningTokens := u.reasoning_tokens.getD 0 }
    | none =>
      match m.tokens with
      | some t =>
        { promptTokens := t.prompt.getD 0
          completionTokens := t.completion.getD 0 }
      | none =>
        match m.tokenCount with
        | some n =>
          if m.model.isSome then { completionTokens := n }
          else { promptTokens := n }
        | none => {}
  { main with
    cacheWriteTokens := (m.cacheTokens.map (·.write.getD 0)).getD 0
    cacheReadTokens := (m.cacheTokens.map (·.read.getD 0)).getD 0 }

/-- Modelled from the spec: the running `TokenUsageTotals` of the
message aggregator (§4.2 steps 3 and 5 — token counts are accumulated
for every record, priced or not). -/
def messageTokenTotals (messages : List Message) : TokenUsage :=
  messages.foldl (fun acc m => addTokens acc (normalizeMessageTokens m)) {}

/-!
## Helper lemmas -/

/-- The lookup loop is a first-match scan over the listed order. -/
theorem findPeriod_eq_find? (date : Option Int) (ps : List PricingPeriod) :
    findPeriod date ps = ps.find? (fun p => periodContains p date) := by
  induction ps with
  | nil => rfl
  | cons p rest ih =>
    by_cases h : periodContains p date
    · simp [findPeriod, List.find?, h]
    · simp only [findPeriod, List.find?, h]
      simpa [h] using ih

/-- After `ensureModel`, the key is present. -/
theorem findModel_ensureModel_isSome (models : List (String × ModelData))
    (modelId : String) : (findModel (ensureModel models modelId) modelId).isSome := by
  unfold ensureModel findModel
  rcases hf : models.find? (fun e => e.1 == modelId) with _ | e
  · simp [hf, List.find?_append]
  · simp [hf]

/-- Lemma: `updateModel` rewrites exactly the looked-up entry. -/
theorem findModel_updateModel_self (models : List (String × ModelData))
    (modelId : String) (f : ModelData → ModelData) :
    findModel (updateModel models modelId f) modelId =
      (findModel models modelId).map f := by
  induction models with
  | nil => rfl
  | cons e rest ih =>
    unfold findModel updateModel at ih ⊢
    rw [List.map_cons]
    by_cases h : e.1 == modelId
    · have he : (if (e.1 == modelId) = true then (e.1, f e.2) else e) = (e.1, f e.2) := by
        simp [h]
      rw [he]
      simp [List.find?_cons, h]
    · have he : (if (e.1 == modelId) = true then (e.1, f e.2) else e) = e := by
        simp [h]
      rw [he]
      simp only [List.find?_cons, h]
      exact ih

/-- One loop iteration moves `lastUpdated` to the max with the
(valid) timestamp of the transaction, whatever the rest of the step does. -/
theorem processTransaction_lastUpdated (s : AggState) (t : Transaction) :
    (processTransaction s t).lastUpdated =
      match t.createdAt with
      | some d => max s.lastUpdated d
      | none => s.lastUpdated := by
  have hmax : ∀ a d : Int, (if a < d then d else a) = max a d := by
    intro a d
    rcases le_or_lt d a with h | h
    · rw [if_neg (not_lt.mpr h), max_eq_left h]
    · rw [if_pos h, max_eq_right h.le]
  unfold processTransaction
  rcases t.createdAt with _ | d <;> rcases t.model with _ | m
  · rfl
  · rcases calculateCost m (normalizeTransactionTokens t) t.createdAt with _ | c <;> rfl
  · simp only []
    rw [hmax]
  · simp only []
    rw [hmax]

/-- Over the whole loop, `lastUpdated` is the running max of the valid
timestamps, seeded with the initial value. -/
theorem foldl_lastUpdated (ts : List Transaction) (s : AggState) :
    (ts.foldl processTransaction s).lastUpdated =
      (ts.filterMap (·.createdAt)).foldl max s.lastUpdated := by
  induction ts generalizing s with
  | nil => rfl
  | cons t rest ih =>
    rw [List.foldl_cons, ih, List.filterMap_cons]
    rcases h : t.createdAt with _ | d
    · rw [processTransaction_lastUpdated, h]
    · rw [List.foldl_cons, processTransaction_lastUpdated, h]

/-- Shared characterization of one loop iteration on a transaction whose
`(model, date)` pricing resolution misses (lines 137-143 of
ConversationCost.js): the `tokenValue` fallback cost is added to the
breakdown (completion when the tokenType string is "completion", else
prompt) and to the cost of the model entry; the token usage of that
entry is left as it was, while the overall token totals do absorb the
counts of the transaction. -/
theorem processTransaction_pricingMiss (s : AggState) (t : Transaction)
    (m : String) (hm : t.model = some m)
    (hmiss : calculateCost m (normalizeTransactionTokens t) t.createdAt = none) :
    ((processTransaction s t).costBreakdown =
      (if t.tokenType == "completion" then
        { s.costBreakdown with
            completion := s.costBreakdown.completion + |t.tokenValue.getD 0| / 1000000 }
      else
        { s.costBreakdown with
            prompt := s.costBreakdown.prompt + |t.tokenValue.getD 0| / 1000000 })) ∧
    (processTransaction s t).tokenUsage =
      addTokens s.tokenUsage (normalizeTransactionTokens t) ∧
    (∃ md, findModel (ensureModel s.models m) m = some md ∧
      findModel (processTransaction s t).models m =
        some { md with cost := md.cost + |t.tokenValue.getD 0| / 1000000
                       transactionCount := md.transactionCount + 1 }) := by
  unfold processTransaction
  rw [hm]
  simp only [hmiss]
  refine ⟨by trivial, by trivial, ?_⟩
  rcases ho : findModel (ensureModel s.models m) m with _ | md
  · exact absurd ho (by
      have := findModel_ensureModel_isSome s.models m
      intro hc
      rw [hc] at this
      exact Bool.noConfusion this)
  · refine ⟨md, rfl, ?_⟩
    rw [findModel_updateModel_self, findModel_updateModel_self, ho]
    rfl

/-- The batch slices concatenate back to the original list. -/
theorem chunksOf_flatten (n : ℕ) (h : 0 < n) :
    (l : List α) → (chunksOf n h l).flatten = l
  | [] => by rw [chunksOf]; rfl
  | x :: xs => by
    rw [chunksOf, List.flatten_cons]
    rw [chunksOf_flatten n h ((x :: xs).drop n)]
    exact List.take_append_drop n (x :: xs)
termination_by l => l.length
decreasing_by
  simp only [List.length_drop, List.length_cons]
  omega

/-- Looking up a key after folding per-key assignments over a list of
identifiers: present keys map to their computed value, others keep the
prior map. -/
theorem foldl_assign_lookup (display : String → Option CostDisplay) :
    ∀ (l : List String) (res : String → Option (Option CostDisplay)) (k : String),
    (l.foldl (fun r cid => fun x => if x == cid then some (display cid) else r x) res) k
      = if k ∈ l then some (display k) else res k := by
  intro l
  induction l with
  | nil => intro res k; simp
  | cons a l ih =>
    intro res k
    rw [List.foldl_cons, ih]
    by_cases hk : k ∈ l
    · simp [hk]
    · by_cases hak : k = a
      · subst hak
        simp [hk]
      · simp [hk, hak, Ne.symm hak]

/-- Lemma: `getMultipleConversationCosts` is the per-identifier assignment fold
over the flattened batches. -/
theorem getMultipleConversationCosts_eq_foldl
    (fetch : String → Except Unit (List Transaction)) (ids : List String) :
    getMultipleConversationCosts fetch ids =
      ids.foldl
        (fun r cid => fun x =>
          if x == cid then some (getConversationCostDisplay fetch cid) else r x)
        (fun _ => none) := by
  unfold getMultipleConversationCosts
  simp only [List.foldl_map]
  rw [← List.foldl_flatten]
  rw [chunksOf_flatten]

/-- Appending one message adds exactly its normalized counts to the
running totals. -/
theorem messageTokenTotals_append (msgs : List Message) (m : Message) :
    messageTokenTotals (msgs ++ [m]) =
      addTokens (messageTokenTotals msgs) (normalizeMessageTokens m) := by
  unfold messageTokenTotals
  rw [List.foldl_append]
  rfl

/-!
## Claim theorems -/

/-- C1: for every model with a pricing entry and every date,
`getPricingForDate` scans the period list of that model in listed order and
returns the first period whose inclusive interval
`[effectiveFrom, effectiveTo or +infinity]` contains the date
(`List.find?` is exactly that first-match scan, and `periodContains` the
inclusive-endpoints containment test); if no period matches it returns
the last-listed period as a fallback, and an unknown model yields
`none`.  Consequently the gpt-3.5-turbo dates 2023-11-10 and 2024-06-01
resolve to their own periods (completion prices 2.0/1M and 1.5/1M), and
1000 completion tokens at each date cost 0.002 and 0.0015 USD,
totalling 0.0035. -/
theorem getPricingForDate_first_match_fallback (modelId : String)
    (date : Option Int) :
    (lookupConfig modelId = none → getPricingForDate modelId date = none) ∧
    (∀ cfg, lookupConfig modelId = some cfg →
      getPricingForDate modelId date =
        match cfg.pricing.find? (fun p => periodContains p date) with
        | some p => some p
        | none => cfg.pricing.getLast?) ∧
    (getPricingForDate "gpt-3.5-turbo" (some 20231110000000) =
        some { effectiveFrom := 20231106000000, effectiveTo := some 20240124235959,
               prompt := 1.0, completion := 2.0 } ∧
      getPricingForDate "gpt-3.5-turbo" (some 20240601000000) =
        some { effectiveFrom := 20240125000000, prompt := 0.5, completion := 1.5 }) ∧
    (calculateCost "gpt-3.5-turbo" { completionTokens := 1000 }
        (some 20231110000000) =
        some { prompt := 0, completion := 0.002, cacheWrite := 0, cacheRead := 0,
               reasoning := 0, total := 0.002 } ∧
      calculateCost "gpt-3.5-turbo" { completionTokens := 1000 }
        (some 20240601000000) =
        some { prompt := 0, completion := 0.0015, cacheWrite := 0, cacheRead := 0,
               reasoning := 0, total := 0.0015 } ∧
      (0.002 : ℚ) + 0.0015 = 0.0035) := by
  refine ⟨?_, ?_, ⟨rfl, rfl⟩, ?_, ?_, ?_⟩
  · intro h
    unfold getPricingForDate
    rw [h]
  · intro cfg h
    have hm : getPricingForDate modelId date =
        match findPeriod date cfg.pricing with
        | some p => some p
        | none => cfg.pricing.getLast? := by
      unfold getPricingForDate
      rw [h]
    rw [hm, findPeriod_eq_find?]
  · have h : getPricingForDate "gpt-3.5-turbo" (some 20231110000000) =
        some { effectiveFrom := 20231106000000, effectiveTo := some 20240124235959,
               prompt := 1.0, completion := 2.0 } := rfl
    simp only [calculateCost, h]
    norm_num
  · have h : getPricingForDate "gpt-3.5-turbo" (some 20240601000000) =
        some { effectiveFrom := 20240125000000, prompt := 0.5, completion := 1.5 } := rfl
    simp only [calculateCost, h]
    norm_num
  · norm_num

/-- Closed instance of C1: an unknown model resolves to `none`, and
gpt-4o dated before its earliest period falls back to the last-listed
period. -/
theorem getPricingForDate_first_match_fallback_witness :
    getPricingForDate "no-such-model" (some 20240101000000) = none ∧
    getPricingForDate "gpt-4o" (some 20231110000000) =
      some { effectiveFrom := 20240513000000, prompt := 5.0, completion := 15.0 } := by
  constructor
  · exact (getPricingForDate_first_match_fallback "no-such-model"
      (some 20240101000000)).1 rfl
  · have h := (getPricingForDate_first_match_fallback "gpt-4o"
      (some 20231110000000)).2.1
      { provider := "OpenAI", category := "gpt-4o",
        pricing := [{ effectiveFrom := 20240513000000, prompt := 5.0, completion := 15.0 }] }
      rfl
    rw [h]
    rfl

/-- The form `(t / 1e6) * price` of the code equals the form
`t * (price / 1e6)` of the claim. -/
theorem costFormulaComm (t : ℕ) (price : ℚ) :
    (if t ≠ 0 then (t : ℚ) / 1000000 * price else 0) =
      (if t ≠ 0 then (t : ℚ) * (price / 1000000) else 0) := by
  by_cases h : t ≠ 0 <;> simp [h] <;> ring

/-- The truthiness test of the code on an optional unit price
(`price ≠ 0`) and the existence-only condition of the claim price the
same value: a zero
unit price makes both sides zero. -/
theorem costFormulaCommOpt (t : ℕ) (price : ℚ) :
    (if t ≠ 0 ∧ price ≠ 0 then (t : ℚ) / 1000000 * price else 0) =
      (if t ≠ 0 then (t : ℚ) * (price / 1000000) else 0) := by
  by_cases ht : t ≠ 0 <;> by_cases hp : price = 0 <;> simp [ht, hp] <;> ring

/-- C2: for every model with resolvable pricing and every normalized
token usage, `calculateCost` prices each of the five categories as
`tokenCount * (unit price / 1,000,000)` when the token count is nonzero
and the unit price of the category exists in the resolved period, and `0`
otherwise, and the returned total is the sum of the five category
costs. -/
theorem calculateCost_category_costs (modelId : String) (u : TokenUsage)
    (date : Option Int) (pricing : PricingPeriod)
    (h : getPricingForDate modelId date = some pricing) :
    calculateCost modelId u date =
      some { prompt :=
               if u.promptTokens ≠ 0 then
                 (u.promptTokens : ℚ) * (pricing.prompt / 1000000) else 0
             completion :=
               if u.completionTokens ≠ 0 then
                 (u.completionTokens : ℚ) * (pricing.completion / 1000000) else 0
             cacheWrite :=
               match pricing.cache with
               | some cp =>
                 if u.cacheWriteTokens ≠ 0 then
                   (u.cacheWriteTokens : ℚ) * (cp.write / 1000000) else 0
               | none => 0
             cacheRead :=
               match pricing.cache with
               | some cp =>
                 if u.cacheReadTokens ≠ 0 then
                   (u.cacheReadTokens : ℚ) * (cp.read / 1000000) else 0
               | none => 0
             reasoning :=
               match pricing.reasoning with
               | some rp =>
                 if u.reasoningTokens ≠ 0 then
                   (u.reasoningTokens : ℚ) * (rp.tokens / 1000000) else 0
               | none => 0
             total :=
               (if u.promptTokens ≠ 0 then
                 (u.promptTokens : ℚ) * (pricing.prompt / 1000000) else 0) +
               (if u.completionTokens ≠ 0 then
                 (u.completionTokens : ℚ) * (pricing.completion / 1000000) else 0) +
               (match pricing.cache with
                | some cp =>
                  if u.cacheWriteTokens ≠ 0 then
                    (u.cacheWriteTokens : ℚ) * (cp.write / 1000000) else 0
                | none => 0) +
               (match pricing.cache with
                | some cp =>
                  if u.cacheReadTokens ≠ 0 then
                    (u.cacheReadTokens : ℚ) * (cp.read / 1000000) else 0
                | none => 0) +
               (match pricing.reasoning with
                | some rp =>
                  if u.reasoningTokens ≠ 0 then
                    (u.reasoningTokens : ℚ) * (rp.tokens / 1000000) else 0
                | none => 0) } := by
  simp only [calculateCost, h, Option.some.injEq]
  have hw : (match pricing.cache with
      | some cp =>
        if u.cacheWriteTokens ≠ 0 ∧ cp.write ≠ 0 then
          (u.cacheWriteTokens : ℚ) / 1000000 * cp.write else 0
      | none => 0) =
      (match pricing.cache with
      | some cp =>
        if u.cacheWriteTokens ≠ 0 then
          (u.cacheWriteTokens : ℚ) * (cp.write / 1000000) else 0
      | none => 0) := by
    rcases pricing.cache with _ | cp
    · rfl
    · exact costFormulaCommOpt _ _
  have hr : (match pricing.cache with
      | some cp =>
        if u.cacheReadTokens ≠ 0 ∧ cp.read ≠ 0 then
          (u.cacheReadTokens : ℚ) / 1000000 * cp.read else 0
      | none => 0) =
      (match pricing.cache with
      | some cp =>
        if u.cacheReadTokens ≠ 0 then
          (u.cacheReadTokens : ℚ) * (cp.read / 1000000) else 0
      | none => 0) := by
    rcases pricing.cache with _ | cp
    · rfl
    · exact costFormulaCommOpt _ _
  have hn : (match pricing.reasoning with
      | some rp =>
        if u.reasoningTokens ≠ 0 ∧ rp.tokens ≠ 0 then
          (u.reasoningTokens : ℚ) / 1000000 * rp.tokens else 0
      | none => 0) =
      (match pricing.reasoning with
      | some rp =>
        if u.reasoningTokens ≠ 0 then
          (u.reasoningTokens : ℚ) * (rp.tokens / 1000000) else 0
      | none => 0) := by
    rcases pricing.reasoning with _ | rp
    · rfl
    · exact costFormulaCommOpt _ _
  rw [CostResult.mk.injEq]
  refine ⟨costFormulaComm _ _, costFormulaComm _ _, hw, hr, hn, ?_⟩
  rw [costFormulaComm, costFormulaComm, hw, hr, hn]

/-- Closed instance of C2 at the cache-aware claude-3-5-sonnet example
of the spec: 1000 completion + 500 cache-write + 300 cache-read tokens
on 2024-06-01 cost 0.015, 0.001875 and 0.00009 USD. -/
theorem calculateCost_category_costs_witness :
    calculateCost "claude-3-5-sonnet"
      { completionTokens := 1000, cacheWriteTokens := 500, cacheReadTokens := 300 }
      (some 20240601000000) =
      some { prompt := 0, completion := 0.015, cacheWrite := 0.001875,
             cacheRead := 0.00009, reasoning := 0, total := 0.016965 } := by
  rw [calculateCost_category_costs "claude-3-5-sonnet"
    { completionTokens := 1000, cacheWriteTokens := 500, cacheReadTokens := 300 }
    (some 20240601000000)
    { effectiveFrom := 20240620000000, prompt := 3.0, completion := 15.0,
      cache := some { write := 3.75, read := 0.3 } }
    rfl]
  norm_num

/-- Counterexample to C3 as stated: for a transaction on an unknown
model carrying `tokenValue = 1000000`, the cost contribution of the record
is not zero — the completion breakdown and the per-model cost become
1 USD (the `tokenValue / 1e6` fallback) — and the 1000
completion tokens are absorbed by the overall totals but not by the
per-model entry. -/
theorem pricingMiss_cost_not_zero_cex :
    (calculateConversationCost "c"
      [{ model := some "unknown-model-xyz", tokenType := "completion",
         rawAmount := some 1000, tokenValue := some 1000000,
         createdAt := some 20240601000000 }]).map
      (fun s => (s.costBreakdown.completion, s.tokenUsage.completionTokens,
                 s.modelBreakdown.map (fun e => (e.cost, e.tokenUsage.completionTokens)))) =
      some (1, 1000, [(1, 0)]) ∧ (1 : ℚ) ≠ 0 := by
  constructor
  · with_unfolding_all rfl
  · norm_num

/-- C3 (amended): for every transaction whose `(modelId, date)` pricing
resolution misses, the aggregation adds the fallback cost
`|tokenValue| / 1e6` to the breakdown (completion when
the tokenType string is "completion", else prompt) and to the
per-model cost, while the token counts of the transaction are
accumulated into the overall token totals but not into the token usage
of the per-model entry. -/
theorem pricingMiss_fallback_contribution (s : AggState) (t : Transaction)
    (m : String) (hm : t.model = some m)
    (hmiss : calculateCost m (normalizeTransactionTokens t) t.createdAt = none) :
    ((processTransaction s t).costBreakdown =
      (if t.tokenType == "completion" then
        { s.costBreakdown with
            completion := s.costBreakdown.completion + |t.tokenValue.getD 0| / 1000000 }
      else
        { s.costBreakdown with
            prompt := s.costBreakdown.prompt + |t.tokenValue.getD 0| / 1000000 })) ∧
    (processTransaction s t).tokenUsage =
      addTokens s.tokenUsage (normalizeTransactionTokens t) ∧
    (∃ md, findModel (ensureModel s.models m) m = some md ∧
      findModel (processTransaction s t).models m =
        some { md with cost := md.cost + |t.tokenValue.getD 0| / 1000000
                       transactionCount := md.transactionCount + 1 }) :=
  processTransaction_pricingMiss s t m hm hmiss

/-- Closed instance of the amended C3 statement at the unknown-model
completion transaction. -/
theorem pricingMiss_fallback_contribution_witness :
    (processTransaction {}
        { model := some "unknown-model-xyz", tokenType := "completion",
          rawAmount := some 1000, tokenValue := some 1000000,
          createdAt := some 20240601000000 }).costBreakdown =
      { completion := (0 : ℚ) + |((1000000 : ℚ))| / 1000000 } ∧
    (processTransaction {}
        { model := some "unknown-model-xyz", tokenType := "completion",
          rawAmount := some 1000, tokenValue := some 1000000,
          createdAt := some 20240601000000 }).tokenUsage =
      addTokens {} { completionTokens := 1000 } ∧
    (∃ md, findModel (ensureModel [] "unknown-model-xyz") "unknown-model-xyz" = some md ∧
      findModel (processTransaction {}
        { model := some "unknown-model-xyz", tokenType := "completion",
          rawAmount := some 1000, tokenValue := some 1000000,
          createdAt := some 20240601000000 }).models "unknown-model-xyz" =
        some { md with cost := md.cost + |((1000000 : ℚ))| / 1000000
                       transactionCount := md.transactionCount + 1 }) := by
  have h := pricingMiss_fallback_contribution {}
    { model := some "unknown-model-xyz", tokenType := "completion",
      rawAmount := some 1000, tokenValue := some 1000000,
      createdAt := some 20240601000000 }
    "unknown-model-xyz" rfl rfl
  refine ⟨?_, ?_, h.2.2⟩
  · rw [h.1]
    rfl
  · rw [h.2.1]
    rfl

/-- C10: when `calculateCost` returns `null` for a transaction, the
aggregation adds the fallback cost `|tokenValue| / 1e6` to the overall
breakdown (completion when the tokenType string is "completion", else
prompt) and to the cost of that model, while the token counts of the
transaction go only to the overall totals and not to the per-model
`tokenUsage` of the model;
consequently (closed instance in the last conjunct) the per-model token
usage entries can sum to less than the overall token totals. -/
theorem pricingMiss_tokens_skip_model_entry (s : AggState) (t : Transaction)
    (m : String) (hm : t.model = some m)
    (hmiss : calculateCost m (normalizeTransactionTokens t) t.createdAt = none) :
    ((processTransaction s t).costBreakdown =
      (if t.tokenType == "completion" then
        { s.costBreakdown with
            completion := s.costBreakdown.completion + |t.tokenValue.getD 0| / 1000000 }
      else
        { s.costBreakdown with
            prompt := s.costBreakdown.prompt + |t.tokenValue.getD 0| / 1000000 }) ∧
      (processTransaction s t).tokenUsage =
        addTokens s.tokenUsage (normalizeTransactionTokens t) ∧
      ∃ md, findModel (ensureModel s.models m) m = some md ∧
        findModel (processTransaction s t).models m =
          some { md with cost := md.cost + |t.tokenValue.getD 0| / 1000000
                         transactionCount := md.transactionCount + 1 }) ∧
    (∃ summary, calculateConversationCost "c"
        [{ model := some "unknown-model-xyz", tokenType := "prompt",
           rawAmount := some 500, tokenValue := some 250000,
           createdAt := some 20240601000000 }] = some summary ∧
      (summary.modelBreakdown.map (fun e => e.tokenUsage.promptTokens)).sum <
        summary.tokenUsage.promptTokens) := by
  exact ⟨processTransaction_pricingMiss s t m hm hmiss,
    ⟨_, by with_unfolding_all rfl, by with_unfolding_all decide⟩⟩

/-- Closed instance of C10 at an unknown-model prompt transaction: the
fallback cost lands on the prompt breakdown and the token counts on the
overall totals. -/
theorem pricingMiss_tokens_skip_model_entry_witness :
    (processTransaction {}
        { model := some "mystery-model", tokenType := "prompt",
          rawAmount := some 500, tokenValue := some 250000 }).costBreakdown =
      { prompt := (0 : ℚ) + |((250000 : ℚ))| / 1000000 } ∧
    (processTransaction {}
        { model := some "mystery-model", tokenType := "prompt",
          rawAmount := some 500, tokenValue := some 250000 }).tokenUsage =
      addTokens {} { promptTokens := 500 } := by
  have h := pricingMiss_tokens_skip_model_entry {}
    { model := some "mystery-model", tokenType := "prompt",
      rawAmount := some 500, tokenValue := some 250000 }
    "mystery-model" rfl rfl
  refine ⟨?_, ?_⟩
  · rw [h.1.1]
    rfl
  · rw [h.1.2.1]
    rfl

/-- C4 (spec-modelled): a usage record whose model is null and that
carries a flat `tokenCount` contributes that count to the prompt-token
totals and nothing to the completion category. -/
theorem flat_tokenCount_null_model_is_prompt (msgs : List Message)
    (m : Message) (n : ℕ) (hmodel : m.model = none)
    (hcount : m.tokenCount = some n) (husage : m.usage = none)
    (htokens : m.tokens = none) :
    (messageTokenTotals (msgs ++ [m])).promptTokens =
      (messageTokenTotals msgs).promptTokens + n ∧
    (messageTokenTotals (msgs ++ [m])).completionTokens =
      (messageTokenTotals msgs).completionTokens := by
  rw [messageTokenTotals_append]
  unfold normalizeMessageTokens
  rw [hmodel, hcount, husage, htokens]
  exact ⟨rfl, rfl⟩

/-- Closed instance of C4: a 500-token user message (null model) adds
500 prompt tokens and no completion tokens. -/
theorem flat_tokenCount_null_model_is_prompt_witness :
    (messageTokenTotals [{ tokenCount := some 500, createdAt := some 20240601000000 }]).promptTokens =
      (messageTokenTotals []).promptTokens + 500 ∧
    (messageTokenTotals [{ tokenCount := some 500, createdAt := some 20240601000000 }]).completionTokens =
      (messageTokenTotals []).completionTokens := by
  have h := flat_tokenCount_null_model_is_prompt []
    { tokenCount := some 500, createdAt := some 20240601000000 } 500 rfl rfl rfl rfl
  exact h

/-- Counterexample to C5 as stated: a record with a model and token
count but no timestamp does not produce a null/empty/zero-cost result —
the code prices it through the Invalid-Date fallback resolution and
returns a summary with `totalCost = 0.06`. -/
theorem no_timestamp_not_zero_cost_cex :
    (calculateConversationCost "c"
      [{ model := some "gpt-4", tokenType := "completion",
         rawAmount := some 1000 }]).map (·.totalCost) = some 0.06 ∧
    (0.06 : ℚ) ≠ 0 := by
  constructor
  · with_unfolding_all rfl
  · norm_num

/-- C5 (amended): an empty or absent record list yields null; a record
with no model contributes zero cost and zero tokens (only the
`lastUpdated` tracking may move); and for any non-empty list the
operation always returns a summary rather than raising.  A record with
no timestamp, however, is still priced (through the fallback pricing
resolution) and can contribute a non-zero cost. -/
theorem absent_data_handling (conversationId : String)
    (ts : List Transaction) (s : AggState) (t : Transaction) :
    (ts = [] → calculateConversationCost conversationId ts = none) ∧
    (ts ≠ [] → ∃ summary,
      calculateConversationCost conversationId ts = some summary) ∧
    (t.model = none →
      (processTransaction s t).costBreakdown = s.costBreakdown ∧
      (processTransaction s t).tokenUsage = s.tokenUsage ∧
      (processTransaction s t).models = s.models) := by
  refine ⟨?_, ?_, ?_⟩
  · intro h
    rw [h]
    rfl
  · intro h
    unfold calculateConversationCost
    rw [if_neg (by simpa using h)]
    exact ⟨_, rfl⟩
  · intro h
    unfold processTransaction
    rw [h]
    exact ⟨rfl, rfl, rfl⟩

/-- Closed instance of the amended C5 statement: the empty list maps to
null, a singleton list yields a summary, and a model-less record leaves
cost, token and model accumulators unchanged. -/
theorem absent_data_handling_witness :
    (calculateConversationCost "c" ([] : List Transaction) = none) ∧
    (∃ summary, calculateConversationCost "c"
      [{ model := some "gpt-4", tokenType := "completion",
         rawAmount := some 1000 }] = some summary) ∧
    ((processTransaction {} ({} : Transaction)).costBreakdown = ({} : AggState).costBreakdown ∧
      (processTransaction {} ({} : Transaction)).tokenUsage = ({} : AggState).tokenUsage ∧
      (processTransaction {} ({} : Transaction)).models = ({} : AggState).models) := by
  refine ⟨?_, ?_, ?_⟩
  · exact (absent_data_handling "c" [] {} {}).1 rfl
  · exact (absent_data_handling "c"
      [{ model := some "gpt-4", tokenType := "completion", rawAmount := some 1000 }]
      {} {}).2.1 (by simp)
  · exact (absent_data_handling "c" [] {} {}).2.2 rfl

/-- Counterexample to C6 as stated: with a single record carrying no
timestamp, `lastUpdated` comes out as the epoch (`new Date(0)`, here
the instant `0`), not the current time. -/
theorem lastUpdated_no_timestamp_epoch_cex :
    (calculateConversationCost "c"
      [{ model := some "gpt-4", tokenType := "completion",
         rawAmount := some 1000 }]).map (·.lastUpdated) = some 0 ∧
    (0 : Int) ≠ 20251011000000 := by
  constructor
  · with_unfolding_all rfl
  · norm_num

/-- C6 (amended): for every non-empty record list, the `lastUpdated`
of the summary is the running maximum, seeded with the epoch (0), of the
timestamps actually present on records; in particular when no record
carries a timestamp it equals the epoch (not "now"). -/
theorem lastUpdated_max_seeded_epoch (conversationId : String)
    (ts : List Transaction) (hne : ts ≠ []) :
    ∃ s, calculateConversationCost conversationId ts = some s ∧
      s.lastUpdated = (ts.filterMap (·.createdAt)).foldl max 0 ∧
      ((∀ t ∈ ts, t.createdAt = none) → s.lastUpdated = 0) := by
  unfold calculateConversationCost
  rw [if_neg (by simpa using hne)]
  refine ⟨_, rfl, ?_, ?_⟩
  · exact foldl_lastUpdated ts {}
  · intro h
    have hnil : ts.filterMap (·.createdAt) = [] := by
      rw [List.filterMap_eq_nil_iff]
      exact h
    rw [foldl_lastUpdated, hnil]
    rfl

/-- Closed instance of the amended C6 statement: three timestamps
10:00, 15:00 and 12:00 on 2024-06-01 give `lastUpdated` 15:00. -/
theorem lastUpdated_max_seeded_epoch_witness :
    ∃ s, calculateConversationCost "c"
      [{ model := some "gpt-4", tokenType := "completion", rawAmount := some 500,
         createdAt := some 20240601100000 },
       { model := some "gpt-4", tokenType := "completion", rawAmount := some 500,
         createdAt := some 20240601150000 },
       { model := some "gpt-4", tokenType := "completion", rawAmount := some 500,
         createdAt := some 20240601120000 }] = some s ∧
      s.lastUpdated = 20240601150000 := by
  obtain ⟨s, hs, hmax, -⟩ := lastUpdated_max_seeded_epoch "c"
    [{ model := some "gpt-4", tokenType := "completion", rawAmount := some 500,
       createdAt := some 20240601100000 },
     { model := some "gpt-4", tokenType := "completion", rawAmount := some 500,
       createdAt := some 20240601150000 },
     { model := some "gpt-4", tokenType := "completion", rawAmount := some 500,
       createdAt := some 20240601120000 }] (by simp)
  refine ⟨s, hs, ?_⟩
  rw [hmax]
  decide

/-- C7: for every non-empty record list, the `totalCost` of the summary and
each of the five `costBreakdown` fields are the corresponding
accumulated unrounded sums rounded to 5 decimal places via
`round(x * 100000) / 100000`, with `totalCost` the rounding of the sum
of the five unrounded category subtotals. -/
theorem totals_rounded_5dp (conversationId : String) (ts : List Transaction)
    (hne : ts ≠ []) :
    ∃ s, calculateConversationCost conversationId ts = some s ∧
      s.costBreakdown.prompt =
        (jsRound ((ts.foldl processTransaction {}).costBreakdown.prompt * 100000) : ℚ)
          / 100000 ∧
      s.costBreakdown.completion =
        (jsRound ((ts.foldl processTransaction {}).costBreakdown.completion * 100000) : ℚ)
          / 100000 ∧
      s.costBreakdown.cacheWrite =
        (jsRound ((ts.foldl processTransaction {}).costBreakdown.cacheWrite * 100000) : ℚ)
          / 100000 ∧
      s.costBreakdown.cacheRead =
        (jsRound ((ts.foldl processTransaction {}).costBreakdown.cacheRead * 100000) : ℚ)
          / 100000 ∧
      s.costBreakdown.reasoning =
        (jsRound ((ts.foldl processTransaction {}).costBreakdown.reasoning * 100000) : ℚ)
          / 100000 ∧
      s.totalCost =
        (jsRound (((ts.foldl processTransaction {}).costBreakdown.prompt +
          (ts.foldl processTransaction {}).costBreakdown.completion +
          (ts.foldl processTransaction {}).costBreakdown.cacheWrite +
          (ts.foldl processTransaction {}).costBreakdown.cacheRead +
          (ts.foldl processTransaction {}).costBreakdown.reasoning) * 100000) : ℚ)
          / 100000 := by
  unfold calculateConversationCost
  rw [if_neg (by simpa using hne)]
  exact ⟨_, rfl, rfl, rfl, rfl, rfl, rfl, rfl⟩

/-- Closed instance of C7: a 1000-completion-token gpt-4 transaction
rounds to a 0.06 USD total and completion breakdown. -/
theorem totals_rounded_5dp_witness :
    ∃ s, calculateConversationCost "c"
      [{ model := some "gpt-4", tokenType := "completion",
         rawAmount := some 1000, createdAt := some 20240601000000 }] = some s ∧
      s.totalCost = 0.06 ∧ s.costBreakdown.completion = 0.06 := by
  obtain ⟨s, hs, h1, h2, h3, h4, h5, h6⟩ := totals_rounded_5dp "c"
    [{ model := some "gpt-4", tokenType := "completion",
       rawAmount := some 1000, createdAt := some 20240601000000 }] (by simp)
  refine ⟨s, hs, ?_, ?_⟩
  · rw [h6]
    with_unfolding_all rfl
  · rw [h2]
    with_unfolding_all rfl

/-- C8: the batch operation returns a mapping with an entry for every
input identifier; a failure fetching one conversation yields `null` for
that key only (the display of a failing fetch is `none`), and the value
stored for an identifier depends only on the fetch result for that
same identifier, so one failure does not alter the others. -/
theorem batch_entry_per_id (fetch : String → Except Unit (List Transaction))
    (ids : List String) (id : String) (hid : id ∈ ids) :
    getMultipleConversationCosts fetch ids id =
      some (getConversationCostDisplay fetch id) ∧
    (∀ e : Unit, fetch id = .error e →
      getConversationCostDisplay fetch id = none) ∧
    (∀ g : String → Except Unit (List Transaction), fetch id = g id →
      getConversationCostDisplay fetch id = getConversationCostDisplay g id) := by
  refine ⟨?_, ?_, ?_⟩
  · rw [getMultipleConversationCosts_eq_foldl, foldl_assign_lookup]
    simp [hid]
  · intro e he
    unfold getConversationCostDisplay
    rw [he]
  · intro g hg
    unfold getConversationCostDisplay
    rw [hg]

/-- Closed instance of C8: with a fetch that fails, the singleton batch
still carries an entry for its identifier, and that entry is `null`. -/
theorem batch_entry_per_id_witness :
    getMultipleConversationCosts (fun _ => Except.error ()) ["a"] "a" =
      some (getConversationCostDisplay (fun _ => Except.error ()) "a") ∧
    getConversationCostDisplay (fun _ => Except.error ()) "a" = none := by
  have h := batch_entry_per_id (fun _ => Except.error ()) ["a"] "a" (by simp)
  exact ⟨h.1, h.2.1 () rfl⟩

/-- C9: for every non-negative raw cost, the display formatter returns
the string `<$0.001` below 0.001 and otherwise a dollar string whose
fractional part has exactly 4, 3 or 2 digits on `[0.001, 0.01)`,
`[0.01, 1)` and `[1, ∞)` respectively. -/
theorem formatCost_display_buckets (cost : ℚ) (_hpos : 0 ≤ cost) :
    (cost < 0.001 → formatCost cost = "<$0.001") ∧
    (0.001 ≤ cost → cost < 0.01 → ∃ ip fp, formatCost cost =
      "$" ++ (ip ++ "." ++ String.mk fp) ∧ fp.length = 4) ∧
    (0.01 ≤ cost → cost < 1 → ∃ ip fp, formatCost cost =
      "$" ++ (ip ++ "." ++ String.mk fp) ∧ fp.length = 3) ∧
    (1 ≤ cost → ∃ ip fp, formatCost cost =
      "$" ++ (ip ++ "." ++ String.mk fp) ∧ fp.length = 2) := by
  refine ⟨?_, ?_, ?_, ?_⟩
  · intro h
    unfold formatCost
    rw [if_pos h]
  · intro h1 h2
    refine ⟨toString ((jsRound (cost * 10 ^ 4)).toNat / 10 ^ 4),
      fracDigits 4 ((jsRound (cost * 10 ^ 4)).toNat % 10 ^ 4), ?_, by simp [fracDigits]⟩
    unfold formatCost
    rw [if_neg (not_lt.mpr h1), if_pos h2]
    rfl
  · intro h1 h2
    refine ⟨toString ((jsRound (cost * 10 ^ 3)).toNat / 10 ^ 3),
      fracDigits 3 ((jsRound (cost * 10 ^ 3)).toNat % 10 ^ 3), ?_, by simp [fracDigits]⟩
    unfold formatCost
    have h0 : ¬cost < 0.001 := not_lt.mpr (le_trans (by norm_num) h1)
    have h01 : ¬cost < 0.01 := not_lt.mpr h1
    rw [if_neg h0, if_neg h01, if_pos h2]
    rfl
  · intro h1
    refine ⟨toString ((jsRound (cost * 10 ^ 2)).toNat / 10 ^ 2),
      fracDigits 2 ((jsRound (cost * 10 ^ 2)).toNat % 10 ^ 2), ?_, by simp [fracDigits]⟩
    unfold formatCost
    have h0 : ¬cost < 0.001 := not_lt.mpr (le_trans (by norm_num) h1)
    have h01 : ¬cost < 0.01 := not_lt.mpr (le_trans (by norm_num) h1)
    have h11 : ¬cost < 1 := not_lt.mpr h1
    rw [if_neg h0, if_neg h01, if_neg h11]
    rfl

/-- Closed instance of C9 at the four sample costs of the spec. -/
theorem formatCost_display_buckets_witness :
    formatCost 0.0002 = "<$0.001" ∧
    (∃ ip fp, formatCost 0.003 =
      "$" ++ (ip ++ "." ++ String.mk fp) ∧ fp.length = 4) ∧
    (∃ ip fp, formatCost 0.06 =
      "$" ++ (ip ++ "." ++ String.mk fp) ∧ fp.length = 3) ∧
    (∃ ip fp, formatCost 7.68 =
      "$" ++ (ip ++ "." ++ String.mk fp) ∧ fp.length = 2) :=
  ⟨(formatCost_display_buckets 0.0002 (by norm_num)).1 (by norm_num),
   (formatCost_display_buckets 0.003 (by norm_num)).2.1 (by norm_num) (by norm_num),
   (formatCost_display_buckets 0.06 (by norm_num)).2.2.1 (by norm_num) (by norm_num),
   (formatCost_display_buckets 7.68 (by norm_num)).2.2.2 (by norm_num)⟩
